import Mathlib

/-!
Shallow embedding of `main.py`, a synthetic fraud-detection training script:
generate data, split, build a preprocessor, select a model, train (with
optional SMOTE rebalancing), evaluate, and serialize the pipeline.

Third-party library calls (numpy, pandas, scikit-learn, imblearn, joblib) are
modelled by executable definitions that follow their documented contracts;
library internals that the script treats as opaque (the MT19937 bit stream,
the exponential inverse transform, tree building, SMOTE's nearest-neighbour
interpolation, metric formatting, the pickle byte format) are modelled by
deterministic executable stand-ins, noted at each definition.
-/

namespace FraudDetect

/-- A pandas column value block: numeric dtype (float/int, as rationals) or
object dtype (strings). -/
inductive ColVals where
  | num (xs : List ℚ)
  | cat (xs : List String)
deriving DecidableEq

/-- A named pandas column. -/
structure Column where
  name : String
  vals : ColVals
deriving DecidableEq

/-- A pandas DataFrame: an ordered list of named columns. -/
abbrev Frame := List Column

def ColVals.length : ColVals → Nat
  | .num xs => xs.length
  | .cat xs => xs.length

/-- Whether the column has a numeric dtype (`np.number`). -/
def ColVals.isNum : ColVals → Bool
  | .num _ => true
  | .cat _ => false

/-- Row selection on one column (out-of-range indices yield a padding value;
they are never produced below). -/
def ColVals.select (v : ColVals) (idx : List Nat) : ColVals :=
  match v with
  | .num xs => .num (idx.map (fun i => xs.getD i 0))
  | .cat xs => .cat (idx.map (fun i => xs.getD i ""))

/-- `X[nm]`: the values of the named column (missing column: empty numeric). -/
def Frame.colVals (X : Frame) (nm : String) : ColVals :=
  match X.find? (fun c => c.name == nm) with
  | some c => c.vals
  | none => .num []

/-- `X.drop(columns=[nm])`. -/
def Frame.dropCol (X : Frame) (nm : String) : Frame :=
  X.filter (fun c => c.name != nm)

/-- Number of rows (length of the first column). -/
def Frame.nRows (X : Frame) : Nat :=
  match X with
  | [] => 0
  | c :: _ => c.vals.length

/-- Row selection (`X.iloc[idx]`). -/
def Frame.selectRows (X : Frame) (idx : List Nat) : Frame :=
  X.map (fun c => { c with vals := c.vals.select idx })

/-- The numeric values of column `nm` (empty when the column is categorical). -/
def numColOf (X : Frame) (nm : String) : List ℚ :=
  match Frame.colVals X nm with
  | .num xs => xs
  | .cat _ => []

/-- The string values of column `nm` (empty when the column is numeric). -/
def catColOf (X : Frame) (nm : String) : List String :=
  match Frame.colVals X nm with
  | .cat xs => xs
  | .num _ => []

/-- Stand-in for numpy's global `RandomState` bit generator (MT19937): a
64-bit linear congruential step.  The script relies only on the generator
being a deterministic function of its seed; the concrete MT19937 stream is a
library internal. -/
def lcgStep (s : Nat) : Nat :=
  (6364136223846793005 * s + 1442695040888963407) % (2 ^ 64)

def lcgIter (s : Nat) : Nat → Nat
  | 0 => s
  | k + 1 => lcgStep (lcgIter s k)

/-- `np.random.seed(v)`: reinitialize the global state from the 32-bit seed. -/
def npSeedState (seed : Nat) : Nat :=
  lcgStep (seed % (2 ^ 32))

/-- The per-row draws `generate_data` consumes from the numpy distributions:
standard-exponential draws (nonnegative reals, modelled as rationals) and
uniform choices for payment method (3 options), device type (2 options),
hour (`randint(0, 24)`) and the weighted fraud label (2 options).  The
distributions' sampling internals are opaque library code; these streams are
their interface. -/
structure DrawStreams where
  stdExp : Nat → ℚ
  pm : Nat → Fin 3
  dev : Nat → Fin 2
  hour : Nat → Fin 24
  fraud : Nat → Fin 2

/-- numpy rounding (`np.round`): round to the nearest integer, ties to the
even integer. -/
def roundHalfEven (x : ℚ) : ℤ :=
  if x - (⌊x⌋ : ℚ) < 1 / 2 then ⌊x⌋
  else if 1 / 2 < x - (⌊x⌋ : ℚ) then ⌊x⌋ + 1
  else if ⌊x⌋ % 2 = 0 then ⌊x⌋ else ⌊x⌋ + 1

/-- `.round(2)`: round to two decimal places. -/
def round2 (x : ℚ) : ℚ :=
  ((roundHalfEven (100 * x) : ℤ) : ℚ) / 100

def payment_methods : List String := ["CARD", "UPI", "NETBANKING"]

def device_types : List String := ["MOBILE", "DESKTOP"]

/-- One transaction record of the generated table. -/
structure TransactionRow where
  amount : ℚ
  payment_method : String
  device_type : String
  hour : ℚ
  is_fraud : ℚ
deriving DecidableEq

/-- Row `i` of `generate_data`'s table: each column of the source is a
vectorized draw, elementwise over its stream, so row `i` is a function of the
draws at index `i` only. -/
def genRow (d : DrawStreams) (i : Nat) : TransactionRow :=
  { amount := round2 (200 * d.stdExp i)
    payment_method := payment_methods.getD (d.pm i).val ""
    device_type := device_types.getD (d.dev i).val ""
    hour := ((d.hour i).val : ℚ)
    is_fraud := ([0, 1] : List ℚ).getD (d.fraud i).val 0 }

/-- The generated DataFrame, column-wise as in the source. -/
def generate_data_streams (d : DrawStreams) (n : Nat) : Frame :=
  [ { name := "amount", vals := .num ((List.range n).map (fun i => (genRow d i).amount)) }
  , { name := "payment_method",
      vals := .cat ((List.range n).map (fun i => (genRow d i).payment_method)) }
  , { name := "device_type",
      vals := .cat ((List.range n).map (fun i => (genRow d i).device_type)) }
  , { name := "hour", vals := .num ((List.range n).map (fun i => (genRow d i).hour)) }
  , { name := "is_fraud", vals := .num ((List.range n).map (fun i => (genRow d i).is_fraud)) } ]

def finOfMod (x n : Nat) (h : 0 < n) : Fin n :=
  ⟨x % n, Nat.mod_lt x h⟩

/-- The draw streams of the global numpy RandomState right after
`np.random.seed(seed)`, for a table of `n` rows (stand-in generator; the
weighted fraud choice `p=[0.95, 0.05]` is modelled by thresholding a uniform
draw at 95 of 100). -/
def npStreams (seed n : Nat) : DrawStreams :=
  { stdExp := fun i => (((lcgIter (npSeedState seed) (i + 1)) % (2 ^ 20) : ℕ) : ℚ) / (2 ^ 12)
    pm := fun i => finOfMod (lcgIter (npSeedState seed) (n + i + 1)) 3 (by norm_num)
    dev := fun i => finOfMod (lcgIter (npSeedState seed) (2 * n + i + 1)) 2 (by norm_num)
    hour := fun i => finOfMod (lcgIter (npSeedState seed) (3 * n + i + 1)) 24 (by norm_num)
    fraud := fun i => if (lcgIter (npSeedState seed) (4 * n + i + 1)) % 100 < 95 then 0 else 1 }

/-- `generate_data(n)`: seeds the global RNG with 42, then draws the five
columns. -/
def generate_data (n : Nat) : Frame :=
  generate_data_streams (npStreams 42 n) n

/-- The global RandomState after the five vectorized draws of
`generate_data`: a function of the fixed seed and row count only. -/
def postGenState (n : Nat) : Nat :=
  lcgIter (npSeedState 42) (5 * n)

/-- `generate_data` as an action on the global RNG state: `np.random.seed(42)`
discards the incoming state, so the result and the outgoing state do not
depend on it. -/
def generate_dataSt (s : Nat) (n : Nat) : Frame × Nat :=
  (generate_data n, postGenState n)

/-- StandardScaler's fitted parameters: centre and scale.  sklearn's scale
is the standard deviation of the fitting data; the square root is
library-internal irrational arithmetic, modelled by the population variance
(the script relies only on the parameters being learned deterministically
from the fitting data). -/
structure ScalerParams where
  mean : ℚ
  scale : ℚ
deriving DecidableEq

/-- StandardScaler.fit on one column. -/
def scaler_fit (xs : List ℚ) : ScalerParams :=
  let n : ℚ := (xs.length : ℚ)
  let mean := xs.sum / n
  { mean := mean, scale := (xs.map (fun x => (x - mean) ^ 2)).sum / n }

/-- StandardScaler.transform on one value: centre and rescale. -/
def scaler_transform (p : ScalerParams) (x : ℚ) : ℚ :=
  (x - p.mean) / p.scale

/-- OneHotEncoder.fit for one column: the distinct categories observed at fit
time (sklearn stores them sorted; ordering is immaterial to the properties
proved below and is modelled by first occurrence). -/
def ohe_fit (xs : List String) : List String :=
  xs.dedup

/-- OneHotEncoder.transform for one value, with `handle_unknown='ignore'`:
one indicator per fitted category; a value outside the fitted categories
yields all zeros rather than an error. -/
def ohe_encode (cats : List String) (v : String) : List ℚ :=
  cats.map (fun c => if c = v then 1 else 0)

/-- The fitted state of the ColumnTransformer: scaler parameters per numeric
column and observed categories per categorical column. -/
structure FitParams where
  scalers : List (String × ScalerParams)
  categories : List (String × List String)
deriving DecidableEq

/-- The ColumnTransformer built by `build_preprocessor`: numeric and
categorical column lists plus the fitted state (`none` before fitting). -/
structure ColumnTransformerSpec where
  numCols : List String
  catCols : List String
  fitted : Option FitParams
deriving DecidableEq

/-- `build_preprocessor(X)`: partition columns by dtype (`select_dtypes`) and
compose a StandardScaler over the numeric columns with a OneHotEncoder
(`handle_unknown='ignore'`) over the categorical ones. -/
def build_preprocessor (X : Frame) : ColumnTransformerSpec :=
  { numCols := (X.filter (fun c => c.vals.isNum)).map (fun c => c.name)
    catCols := (X.filter (fun c => !c.vals.isNum)).map (fun c => c.name)
    fitted := none }

def lookupScaler (fp : FitParams) (nm : String) : ScalerParams :=
  match fp.scalers.lookup nm with
  | some p => p
  | none => { mean := 0, scale := 0 }

def lookupCats (fp : FitParams) (nm : String) : List String :=
  match fp.categories.lookup nm with
  | some cs => cs
  | none => []

/-- ColumnTransformer.fit: learn scaler parameters and categories from the
fitting table (functional rendering of the in-place mutation). -/
def ct_fit (ct : ColumnTransformerSpec) (X : Frame) : ColumnTransformerSpec :=
  let fp : FitParams :=
    { scalers := ct.numCols.map (fun nm => (nm, scaler_fit (numColOf X nm)))
      categories := ct.catCols.map (fun nm => (nm, ohe_fit (catColOf X nm))) }
  { ct with fitted := some fp }

/-- One output row of the fitted ColumnTransformer: the standardized numeric
block followed by the concatenated indicator blocks, one block per
categorical column. -/
def ct_row (ct : ColumnTransformerSpec) (fp : FitParams) (X : Frame) (i : Nat) : List ℚ :=
  ct.numCols.map (fun nm => scaler_transform (lookupScaler fp nm) ((numColOf X nm).getD i 0))
    ++ List.flatten (ct.catCols.map (fun nm =>
        ohe_encode (lookupCats fp nm) ((catColOf X nm).getD i "")))

/-- ColumnTransformer.transform.  Applying an unfit transformer is a library
error (caller responsibility per the contract); that case is modelled as the
empty output and is never reached below. -/
def ct_transform (ct : ColumnTransformerSpec) (X : Frame) : List (List ℚ) :=
  match ct.fitted with
  | some fp => (List.range (Frame.nRows X)).map (ct_row ct fp X)
  | none => []

inductive ModelKind where
  | rf
  | xgb
deriving DecidableEq

/-- A classifier object: the constructor arguments plus the fitted state.
The library computes the ensemble parameters deterministically from the
training data and `random_state`; those opaque internals are modelled by
recording the training set itself as the fitted state. -/
structure Classifier where
  kind : ModelKind
  n_estimators : Nat
  max_depth : Option Nat
  learning_rate : Option ℚ
  random_state : Option Nat
  n_jobs : Option Int
  fitted : Option (List (List ℚ) × List ℚ)
deriving DecidableEq

def RandomForestClassifier (n_estimators : Nat) (random_state : Nat) : Classifier :=
  { kind := .rf, n_estimators := n_estimators, max_depth := none, learning_rate := none,
    random_state := some random_state, n_jobs := none, fitted := none }

def XGBClassifier (n_estimators : Nat) (max_depth : Nat) (learning_rate : ℚ)
    (n_jobs : Int) : Classifier :=
  { kind := .xgb, n_estimators := n_estimators, max_depth := some max_depth,
    learning_rate := some learning_rate, random_state := none, n_jobs := some n_jobs,
    fitted := none }

/-- The import guards at the top of the module: `XGB_AVAILABLE` and whether
`SMOTE` is bound to the class rather than `None`. -/
structure Env where
  xgbAvailable : Bool
  smoteAvailable : Bool
deriving DecidableEq

/-- `get_model(name)`: the XGB variant only when requested and available,
otherwise a RandomForest with 300 trees and seed 42. -/
def get_model (xgbAvailable : Bool) (name : String) : Classifier :=
  if name = "xgb" ∧ xgbAvailable = true then XGBClassifier 300 6 (1 / 10) (-1)
  else RandomForestClassifier 300 42

/-- `model.fit(X, y)` (functional rendering of the in-place mutation; the
return value is the same fitted object). -/
def Classifier.fit (c : Classifier) (X : List (List ℚ)) (y : List ℚ) : Classifier :=
  { c with fitted := some (X, y) }

/-- Deterministic key of a feature row, used by the stand-in decision
function of the fitted ensemble. -/
def rowKey (r : List ℚ) : Nat :=
  r.foldl (fun a q => a + q.num.natAbs + q.den) 0

def fitKey : Option (List (List ℚ) × List ℚ) → Nat
  | none => 0
  | some (X, y) => (X.map rowKey).sum + (y.map (fun q => q.num.natAbs)).sum

/-- `predict_proba(X)[:, 1]`: the positive-class scores.  The ensemble's
vote aggregation is library-internal; it is modelled by a deterministic
function of the fitted state and the input row. -/
def Classifier.predict_proba1 (c : Classifier) (X : List (List ℚ)) : List ℚ :=
  X.map (fun r => (((fitKey c.fitted + rowKey r) % 100 : ℕ) : ℚ) / 100)

/-- `predict(X)`: hard class labels from the scores. -/
def Classifier.predict (c : Classifier) (X : List (List ℚ)) : List ℚ :=
  (c.predict_proba1 X).map (fun p => if 1 / 2 ≤ p then 1 else 0)

def countEq (y : List ℚ) (v : ℚ) : Nat :=
  (y.filter (fun a => a == v)).length

def minorityRows (X : List (List ℚ)) (y : List ℚ) (v : ℚ) : List (List ℚ) :=
  ((X.zip y).filter (fun p => p.2 == v)).map (fun p => p.1)

/-- `k` synthetic rows drawn from the given minority rows. -/
def synth (rows : List (List ℚ)) (k : Nat) : List (List ℚ) :=
  (List.range k).map (fun j => rows.getD (j % rows.length) [])

/-- `SMOTE(random_state=42).fit_resample(X, y)`: append synthetic
minority-class samples until the two classes have equal counts.  The
nearest-neighbour interpolation used to synthesize samples is the library's
internal policy (seeded, hence deterministic); synthesis is modelled by
replicating minority rows, which realises the documented balancing contract. -/
def smote_fit_resample (random_state : Nat) (X : List (List ℚ)) (y : List ℚ) :
    List (List ℚ) × List ℚ :=
  let n1 := countEq y 1
  let n0 := countEq y 0
  if n1 < n0 then
    (X ++ synth (minorityRows X y 1) (n0 - n1), y ++ List.replicate (n0 - n1) 1)
  else if n0 < n1 then
    (X ++ synth (minorityRows X y 0) (n1 - n0), y ++ List.replicate (n1 - n0) 0)
  else (X, y)

/-- The `if SMOTE is not None:` block of `train`: resample when the
capability is present, otherwise pass the data through unchanged. -/
def resampleStep (smoteAvailable : Bool) (Xp : List (List ℚ)) (y : List ℚ) :
    List (List ℚ) × List ℚ :=
  if smoteAvailable then smote_fit_resample 42 Xp y else (Xp, y)

/-- `Pipeline([("prep", preprocessor), ("clf", model)])`: the named two-stage
composition. -/
structure Pipe where
  prep : ColumnTransformerSpec
  clf : Classifier
deriving DecidableEq

def Pipeline (prep : ColumnTransformerSpec) (clf : Classifier) : Pipe :=
  { prep := prep, clf := clf }

/-- `pipe.named_steps["prep"]`. -/
def Pipe.named_steps_prep (p : Pipe) : ColumnTransformerSpec :=
  p.prep

/-- `pipe.named_steps["clf"]`. -/
def Pipe.named_steps_clf (p : Pipe) : Classifier :=
  p.clf

/-- The composed pipeline's own predict interface (sklearn semantics):
transform through the non-final steps, then the final step's predict. -/
def Pipe.predict (p : Pipe) (X : Frame) : List ℚ :=
  p.clf.predict (ct_transform p.prep X)

/-- The composed pipeline's own predict_proba interface, positive column. -/
def Pipe.predict_proba1 (p : Pipe) (X : Frame) : List ℚ :=
  p.clf.predict_proba1 (ct_transform p.prep X)

/-- `train(X, y, preprocessor, model)`: fit-transform the preprocessor,
optionally rebalance the transformed data, fit the classifier, and wrap the
two already-fitted objects (Python mutates them in place; the mutation is
rendered by the fitted values flowing into the returned pipeline). -/
def train (smoteAvailable : Bool) (X : Frame) (y : List ℚ)
    (preprocessor : ColumnTransformerSpec) (model : Classifier) : Pipe :=
  let fitPrep := ct_fit preprocessor X
  let X_processed := ct_transform fitPrep X
  let resampled := resampleStep smoteAvailable X_processed y
  let clf := model.fit resampled.1 resampled.2
  Pipeline fitPrep clf

/-- sklearn `classification_report`: a formatted per-class
precision/recall/F1 table.  The formatting is library-internal; it is
modelled as an opaque deterministic rendering of its inputs. -/
def classification_report (y_true y_pred : List ℚ) : String :=
  "precision recall f1-score support " ++ toString (y_true.zip y_pred)

/-- sklearn `roc_auc_score`: the probability that a positive example scores
above a negative one, counting ties as one half. -/
def roc_auc_score (y_true : List ℚ) (scores : List ℚ) : ℚ :=
  let pairs := y_true.zip scores
  let pos := (pairs.filter (fun p => p.1 == 1)).map (fun p => p.2)
  let neg := (pairs.filter (fun p => !(p.1 == 1))).map (fun p => p.2)
  let wins := (pos.map (fun sp =>
    (neg.map (fun sn => if sn < sp then (1 : ℚ) else if sn = sp then 1 / 2 else 0)).sum)).sum
  wins / ((pos.length : ℚ) * (neg.length : ℚ))

/-- The evaluator's inference path for hard labels (source lines 70 and 72):
transform through `named_steps["prep"]`, then the raw classifier's predict. -/
def evaluate_y_pred (pipe : Pipe) (X_test : Frame) : List ℚ :=
  pipe.named_steps_clf.predict (ct_transform pipe.named_steps_prep X_test)

/-- The evaluator's inference path for scores (source lines 70 and 73). -/
def evaluate_y_prob (pipe : Pipe) (X_test : Frame) : List ℚ :=
  pipe.named_steps_clf.predict_proba1 (ct_transform pipe.named_steps_prep X_test)

/-- `evaluate(pipe, X_test, y_test)`: print the classification report and the
ROC AUC line; the returned list is the console trace, in print order. -/
def evaluate (pipe : Pipe) (X_test : Frame) (y_test : List ℚ) : List String :=
  [classification_report y_test (evaluate_y_pred pipe X_test),
   "ROC AUC: " ++ toString (roc_auc_score y_test (evaluate_y_prob pipe X_test))]

/-- `train_test_split(X, y, stratify=y, test_size=0.25)`: no `random_state`
is passed, so the subsampling draws from the global numpy RandomState.  The
stratified shuffling procedure is library-internal; it is modelled as a
deterministic function of the data and the incoming global state (a
state-keyed rotation taking a quarter of the rows as the test set), which it
advances. -/
def train_test_split (s : Nat) (X : Frame) (y : List ℚ) :
    (Frame × Frame × List ℚ × List ℚ) × Nat :=
  let n := y.length
  let k := n / 4
  let shift := lcgStep s % (max 1 n)
  let testIdx := (List.range k).map (fun j => (j + shift) % (max 1 n))
  let trainIdx := (List.range n).filter (fun i => decide (i ∉ testIdx))
  ((Frame.selectRows X trainIdx, Frame.selectRows X testIdx,
    trainIdx.map (fun i => y.getD i 0), testIdx.map (fun i => y.getD i 0)),
   lcgStep s)

/-- The artifact `joblib.dump` writes to "fraud_model.pkl": an opaque binary
format whose documented contract is that a compatible load returns an object
equal to the one dumped. -/
structure Artifact where
  payload : Pipe
deriving DecidableEq

def joblib_dump (pipe : Pipe) : Artifact :=
  { payload := pipe }

def joblib_load (a : Artifact) : Pipe :=
  a.payload

/-- `main()`: the six-stage runner.  `s0` is the global numpy RandomState
entering the run and `env` fixes the optional-library availability.  Returns
the console trace (in print order) and the artifact written to
"fraud_model.pkl". -/
def main (env : Env) (s0 : Nat) : List String × Artifact :=
  let gen := generate_dataSt s0 1000
  let df := gen.1
  let s1 := gen.2
  let X := Frame.dropCol df "is_fraud"
  let y := numColOf df "is_fraud"
  let split := train_test_split s1 X y
  let X_train := split.1.1
  let X_test := split.1.2.1
  let y_train := split.1.2.2.1
  let y_test := split.1.2.2.2
  let preprocessor := build_preprocessor X_train
  let model := get_model env.xgbAvailable "rf"
  let pipe := train env.smoteAvailable X_train y_train preprocessor model
  (["✔ Building pipeline", "✔ Training model", "✔ Evaluating model"]
     ++ evaluate pipe X_test y_test ++ ["✔ Saving model"],
   joblib_dump pipe)

/-- The names bound in the module's global namespace once the body has
executed its imports, try/except guards, and definitions.  The interpreter
itself binds the dunder name `__name__`; the import guards bind
`XGB_AVAILABLE` always, `XGBClassifier` only when available, and `SMOTE`
always (to `None` on ImportError). -/
def moduleGlobals (env : Env) : List String :=
  ["__name__", "joblib", "warnings", "np", "pd", "ColumnTransformer",
   "OneHotEncoder", "StandardScaler", "Pipeline", "train_test_split",
   "classification_report", "roc_auc_score", "RandomForestClassifier",
   "XGB_AVAILABLE", "SMOTE", "generate_data", "build_preprocessor",
   "get_model", "train", "evaluate", "main"]
  ++ (if env.xgbAvailable then ["XGBClassifier"] else [])

inductive ScriptOutcome where
  | completed (stdoutLines : List String)
  | raised (exc : String) (msg : String)
deriving DecidableEq

/-- Running `python main.py` with no arguments: after the module body binds
the globals, the entry guard `if _name_ == "_main_":` evaluates the bare
name `_name_` (single underscores, as written in the source).  Python
resolves a bare name by lookup among the bound globals and raises NameError
when it is unbound; only if it were bound and its value compared equal to
"_main_" would `main()` run. -/
def runScript (env : Env) (s0 : Nat) : ScriptOutcome :=
  if "_name_" ∈ moduleGlobals env then
    ScriptOutcome.completed (main env s0).1
  else
    ScriptOutcome.raised "NameError" "name _name_ is not defined"

/-! Helper lemmas. -/

theorem getD_mem {α : Type} : ∀ (l : List α) (k : Nat), k < l.length → ∀ d : α, l.getD k d ∈ l := by
  intro l
  induction l with
  | nil =>
    intro k hk d
    exact absurd hk (Nat.not_lt_zero k)
  | cons a t ih =>
    intro k hk d
    cases k with
    | zero => exact List.mem_cons_self a t
    | succ k2 =>
      have he : (a :: t).getD (k2 + 1) d = t.getD k2 d := rfl
      rw [he]
      exact List.mem_cons_of_mem a (ih k2 (Nat.lt_of_succ_lt_succ hk) d)

theorem lookup_map_apply {β : Type} (f : String → β) :
    ∀ (l : List String) (nm : String), nm ∈ l →
      (l.map (fun n => (n, f n))).lookup nm = some (f nm) := by
  intro l
  induction l with
  | nil =>
    intro nm hm
    exact absurd hm (List.not_mem_nil nm)
  | cons a t ih =>
    intro nm hm
    by_cases h : nm = a
    · subst h
      simp [List.lookup]
    · have ht : nm ∈ t := (List.mem_cons.mp hm).resolve_left h
      have hb : (nm == a) = false := beq_eq_false_iff_ne.mpr h
      simp [List.lookup, hb, ih nm ht]

theorem ohe_encode_not_mem (cats : List String) (v : String) (h : v ∉ cats) :
    ohe_encode cats v = List.replicate cats.length 0 := by
  induction cats with
  | nil => rfl
  | cons c t ih =>
    have hcv : ¬ (c = v) := fun e => h (by rw [e]; exact List.mem_cons_self v t)
    have hvt : v ∉ t := fun e => h (List.mem_cons_of_mem c e)
    have ht := ih hvt
    simp only [ohe_encode] at ht
    simp only [ohe_encode, List.map_cons, List.length_cons, List.replicate_succ]
    rw [if_neg hcv, ht]

theorem roundHalfEven_nonneg (x : ℚ) (hx : 0 ≤ x) : 0 ≤ roundHalfEven x := by
  have hf : (0 : ℤ) ≤ ⌊x⌋ := Int.le_floor.mpr (by exact_mod_cast hx)
  unfold roundHalfEven
  split_ifs <;> omega

theorem round2_nonneg (x : ℚ) (hx : 0 ≤ x) : 0 ≤ round2 x := by
  unfold round2
  apply div_nonneg _ (by norm_num)
  exact_mod_cast roundHalfEven_nonneg (100 * x) (mul_nonneg (by norm_num) hx)

/-! Claim theorems. -/

/-- C1: the spec claims that running the program as a script with no
arguments executes the full six-stage workflow end to end.  In fact the
source's entry guard compares the unbound bare name `_name_` (the
interpreter binds `__name__`, with double underscores), so every script run
raises NameError right after the definitions and `main` is never invoked:
the workflow does not execute. -/
theorem C1_script_run_raises_NameError (env : Env) (s0 : Nat) :
    runScript env s0 = ScriptOutcome.raised "NameError" "name _name_ is not defined" := by
  have h : "_name_" ∉ moduleGlobals env := by
    cases env with
    | mk xgb sm => cases xgb <;> cases sm <;> decide
  simp [runScript, h]

/-- C2: determinism of the run — the seed is fixed inside `generate_data`
(42) and the row count is fixed (1000), SMOTE and the forest carry
`random_state=42`, and the split draws from the global state that
`np.random.seed(42)` has just overwritten; hence two executions of `main`
starting from arbitrary prior global RNG states produce equal serialized
artifacts, and the loaded pipelines agree on every probe input. -/
theorem C2_two_runs_agree (env : Env) (sa sb : Nat) (probe : Frame) :
    (main env sa).2 = (main env sb).2 ∧
    (joblib_load (main env sa).2).predict probe =
      (joblib_load (main env sb).2).predict probe := by
  have h : (main env sa).2 = (main env sb).2 := rfl
  exact ⟨h, by rw [h]⟩

/-- C3: requesting "xgb" while the boosting library is absent falls back,
through the plain else-branch (no error path), to exactly the classifier
that "rf" yields in any environment: a RandomForest ensemble with 300 trees
and seed 42. -/
theorem C3_xgb_fallback_matches_rf :
    get_model false "xgb" = RandomForestClassifier 300 42 ∧
    ∀ b : Bool, get_model b "rf" = RandomForestClassifier 300 42 := by
  refine ⟨by decide, ?_⟩
  intro b
  unfold get_model
  rw [if_neg]
  rintro ⟨h1, h2⟩
  exact absurd h1 (by decide)

/-- C4: the pipeline returned by `train` is exactly the two-stage
composition of the preprocessor fitted in step 1 and the classifier fitted
in step 3 (Python's in-place mutation rendered as the fitted values), both
in fitted state — not unfit copies — and assembling the pipeline applies no
further fitting. -/
theorem C4_pipeline_reuses_fitted_instances (sm : Bool) (X : Frame) (y : List ℚ)
    (preprocessor : ColumnTransformerSpec) (model : Classifier) :
    train sm X y preprocessor model =
      Pipeline (ct_fit preprocessor X)
        (Classifier.fit model
          (resampleStep sm (ct_transform (ct_fit preprocessor X) X) y).1
          (resampleStep sm (ct_transform (ct_fit preprocessor X) X) y).2) ∧
    ((train sm X y preprocessor model).prep).fitted.isSome = true ∧
    ((train sm X y preprocessor model).clf).fitted.isSome = true :=
  ⟨rfl, rfl, rfl⟩

/-- C5: without the rebalancing capability, `train` fits the classifier on
the transformed features and the labels exactly as given (no resampling, no
row added or removed) and is total (no error value); with the capability,
SMOTE is applied to the output of the fitted preprocessor — the transformed
features — not to the raw frame. -/
theorem C5_rebalance_guard (X : Frame) (y : List ℚ)
    (preprocessor : ColumnTransformerSpec) (model : Classifier) :
    (train false X y preprocessor model).clf.fitted =
      some (ct_transform (ct_fit preprocessor X) X, y) ∧
    (train true X y preprocessor model).clf.fitted =
      some (smote_fit_resample 42 (ct_transform (ct_fit preprocessor X) X) y) :=
  ⟨rfl, rfl⟩

/-- C6: the preprocessor built from the fit table standardizes each numeric
column with parameters learned from the fit table, encodes each categorical
column as one indicator per category observed at fit time, and a value
outside the fitted categories yields the all-zero indicator block instead of
an error. -/
theorem C6_preprocessor_contract (Xfit X : Frame) :
    ∃ fp : FitParams,
      (ct_fit (build_preprocessor Xfit) Xfit).fitted = some fp ∧
      ct_transform (ct_fit (build_preprocessor Xfit) Xfit) X =
        (List.range (Frame.nRows X)).map (fun i =>
          (build_preprocessor Xfit).numCols.map (fun nm =>
            scaler_transform (lookupScaler fp nm) ((numColOf X nm).getD i 0))
          ++ List.flatten ((build_preprocessor Xfit).catCols.map (fun nm =>
            ohe_encode (lookupCats fp nm) ((catColOf X nm).getD i "")))) ∧
      (∀ nm, nm ∈ (build_preprocessor Xfit).numCols →
        lookupScaler fp nm = scaler_fit (numColOf Xfit nm)) ∧
      (∀ nm, nm ∈ (build_preprocessor Xfit).catCols →
        lookupCats fp nm = ohe_fit (catColOf Xfit nm)) ∧
      (∀ nm v, v ∉ lookupCats fp nm →
        ohe_encode (lookupCats fp nm) v = List.replicate (lookupCats fp nm).length 0) := by
  refine ⟨_, rfl, rfl, ?_, ?_, ?_⟩
  · intro nm hm
    unfold lookupScaler
    rw [lookup_map_apply (fun nm => scaler_fit (numColOf Xfit nm)) _ nm hm]
  · intro nm hm
    unfold lookupCats
    rw [lookup_map_apply (fun nm => ohe_fit (catColOf Xfit nm)) _ nm hm]
  · intro nm v hv
    exact ohe_encode_not_mem _ v hv

/-- The draw stream exhibiting C7's failure: a standard-exponential draw of
1/100000 (inside the distribution's range [0, ∞)). -/
def cexStreams : DrawStreams :=
  { stdExp := fun _ => 1 / 100000
    pm := fun _ => 0
    dev := fun _ => 0
    hour := fun _ => 0
    fraud := fun _ => 0 }

/-- C7 (amended): every generated record has a nonnegative amount (the
original claim says positive, but a draw below 1/40000 scales to less than
0.005 and `.round(2)` takes it to 0.00), a payment method among
CARD/UPI/NETBANKING, a device type among MOBILE/DESKTOP, an integer hour in
[0, 23] and a 0/1 fraud label; and the record at index `i` is a function of
the draws at index `i` only (rows are generated independently). -/
theorem C7_record_model (d : DrawStreams) (i : Nat) (h : 0 ≤ d.stdExp i) :
    0 ≤ (genRow d i).amount ∧
    (genRow d i).payment_method ∈ payment_methods ∧
    (genRow d i).device_type ∈ device_types ∧
    (∃ hr : Nat, hr ≤ 23 ∧ (genRow d i).hour = (hr : ℚ)) ∧
    ((genRow d i).is_fraud = 0 ∨ (genRow d i).is_fraud = 1) ∧
    (∀ d2 : DrawStreams, d2.stdExp i = d.stdExp i → d2.pm i = d.pm i →
      d2.dev i = d.dev i → d2.hour i = d.hour i → d2.fraud i = d.fraud i →
      genRow d2 i = genRow d i) := by
  refine ⟨?_, ?_, ?_, ?_, ?_, ?_⟩
  · exact round2_nonneg _ (mul_nonneg (by norm_num) h)
  · exact getD_mem payment_methods (d.pm i).val (d.pm i).isLt ""
  · exact getD_mem device_types (d.dev i).val (d.dev i).isLt ""
  · exact ⟨(d.hour i).val, Nat.lt_succ_iff.mp (d.hour i).isLt, rfl⟩
  · have hlt := (d.fraud i).isLt
    have h01 : (d.fraud i).val = 0 ∨ (d.fraud i).val = 1 := by omega
    rcases h01 with h0 | h1
    · left
      simp [genRow, h0]
    · right
      simp [genRow, h1]
  · intro d2 h1 h2 h3 h4 h5
    simp [genRow, h1, h2, h3, h4, h5]

/-- Witness for C7 at a concrete stream. -/
theorem C7_record_model_witness :
    0 ≤ cexStreams.stdExp 0 ∧
    (0 ≤ (genRow cexStreams 0).amount ∧
      (genRow cexStreams 0).payment_method ∈ payment_methods ∧
      (genRow cexStreams 0).device_type ∈ device_types ∧
      (∃ hr : Nat, hr ≤ 23 ∧ (genRow cexStreams 0).hour = (hr : ℚ)) ∧
      ((genRow cexStreams 0).is_fraud = 0 ∨ (genRow cexStreams 0).is_fraud = 1) ∧
      (∀ d2 : DrawStreams, d2.stdExp 0 = cexStreams.stdExp 0 →
        d2.pm 0 = cexStreams.pm 0 → d2.dev 0 = cexStreams.dev 0 →
        d2.hour 0 = cexStreams.hour 0 → d2.fraud 0 = cexStreams.fraud 0 →
        genRow d2 0 = genRow cexStreams 0)) :=
  ⟨by norm_num [cexStreams], C7_record_model cexStreams 0 (by norm_num [cexStreams])⟩

/-- C7 counterexample: a record generated from a draw of 1/100000 has amount
200 · (1/100000) = 0.002 rounded to two decimals, i.e. exactly 0 — not a
positive real, refuting the claim as stated. -/
theorem C7_counterexample :
    (genRow cexStreams 0).amount = 0 ∧ ¬ (0 < (genRow cexStreams 0).amount) := by
  have h : (genRow cexStreams 0).amount = 0 := by
    show round2 (200 * cexStreams.stdExp 0) = 0
    have h1 : (200 : ℚ) * cexStreams.stdExp 0 = 1 / 500 := by
      norm_num [cexStreams]
    rw [h1]
    unfold round2
    have h2 : (100 : ℚ) * (1 / 500) = 1 / 5 := by norm_num
    rw [h2]
    have h3 : roundHalfEven (1 / 5 : ℚ) = 0 := by
      unfold roundHalfEven
      norm_num
    rw [h3]
    norm_num
  exact ⟨h, by rw [h]; exact lt_irrefl 0⟩

/-- C8 counterexample: the claimed trace starts with the bare line
"Building pipeline" and places "Saving model" before the metrics, but the
run's first line is "✔ Building pipeline" (checkmark prefixed), so no choice
of report text and ROC line makes the claimed trace equal the actual one. -/
theorem C8_counterexample :
    ¬ ∃ rep rocLine : String,
        (main ⟨true, true⟩ 0).1 =
          ["Building pipeline", "Training model", "Evaluating model",
           "Saving model", rep, rocLine] := by
  rintro ⟨rep, rocLine, h⟩
  have h0 : (main ⟨true, true⟩ 0).1.head? = some "✔ Building pipeline" := rfl
  rw [h] at h0
  simp only [List.head?_cons, Option.some.injEq] at h0
  exact absurd h0 (by decide)

/-- C8 (amended): a full run prints, in order, "✔ Building pipeline",
"✔ Training model", "✔ Evaluating model", then the classification report
text and the "ROC AUC: <score>" line from the evaluator, and finally
"✔ Saving model" — the four progress lines carry a checkmark-and-space
before the claimed literals, and the saving line comes after the metrics,
not before them. -/
theorem C8_console_trace (env : Env) (s0 : Nat) :
    ∃ rep auc : String,
      (main env s0).1 =
        ["✔ Building pipeline", "✔ Training model", "✔ Evaluating model",
         rep, "ROC AUC: " ++ auc, "✔ Saving model"] :=
  ⟨_, _, rfl⟩

/-- C9: the evaluator's inference path — transform through the pipeline's
preprocessing stage, then call the raw classifier — yields exactly the
predictions and positive-class scores of the composed pipeline's own
predict / predict_proba interface on the raw features. -/
theorem C9_eval_path_equiv (pipe : Pipe) (X_test : Frame) :
    evaluate_y_pred pipe X_test = pipe.predict X_test ∧
    evaluate_y_prob pipe X_test = pipe.predict_proba1 X_test :=
  ⟨rfl, rfl⟩

/-- C10: the model selector is total — every name other than "xgb"
(including unrecognized tokens and the empty string, in any environment)
takes the else-branch and yields the RandomForest with 300 trees and seed
42, with no error or report. -/
theorem C10_get_model_total (b : Bool) (name : String) (h : name ≠ "xgb") :
    get_model b name = RandomForestClassifier 300 42 := by
  unfold get_model
  rw [if_neg]
  exact fun hc => h hc.1

/-- Witness for C10 at the unrecognized token "svm". -/
theorem C10_get_model_total_witness :
    "svm" ≠ "xgb" ∧ get_model true "svm" = RandomForestClassifier 300 42 :=
  ⟨by decide, C10_get_model_total true "svm" (by decide)⟩

end FraudDetect
